import Mathlib

/-!
Verification of the daily electricity-price trend chart generator
(`电价趋势图绘制.py`).

The script is a single-pass pipeline: clean a three-column table
(date, day-ahead price, real-time price), compute summary statistics,
lay out a four-panel chart, and optionally persist it.

Shallow embedding conventions:
* A raw table cell that may be null/NaN/NaT is an `Option`; `none` models
  pandas' missing value.  Prices are exact rationals `ℚ` (the script's
  float arithmetic is modelled exactly).
* A parsed date is a `Nat` encoded `yyyy*10000 + mm*100 + dd`, so the
  numeric order on the encoding agrees with calendar order
  (`pd.to_datetime` comparison).
* `df.dropna()` keeps exactly the rows in which every column is present.
* `df.sort_values('日期')` is modelled by a merge sort on the date key.
  pandas' default `kind='quicksort'` is documented as unstable, so the
  program guarantees nothing about the relative order of equal dates;
  the embedding fixes one admissible correct sort to stay executable,
  and the theorems about the program assert only the order properties
  every correct sort satisfies (multiset preservation and ascending
  dates).  On date-distinct inputs — in particular the demo fixture —
  all correct sorts coincide, so there the model is exact.
* pandas statistics that evaluate to NaN (`std` of a too-short series,
  `corr` of a constant or too-short series, the guarded `premium_rate`)
  are modelled as `Option.none`.
* Rendering side effects (figures, axes, `print`, `plt.savefig`) are
  modelled by returning the data that would be drawn: the printed
  messages, an optional figure record and the axes-dictionary keys.
  The outcome of the external `plt.savefig` call is an explicit
  `Except String Unit` argument.
-/

/-- Encoding of a calendar date as `yyyymmdd`; numeric order is calendar
order for the dates appearing in this development. -/
def mkDate (y m d : Nat) : Nat := y * 10000 + m * 100 + d

/-- A raw input row: the three positional columns 日期 (date),
日前均价 (day-ahead price), 实时均价 (real-time price); each may be
missing (`none` models NaN/NaT). -/
structure RawRow where
  date : Option Nat
  dayAhead : Option ℚ
  realTime : Option ℚ
deriving DecidableEq

/-- A cleaned row: all three columns present. -/
structure Row where
  date : Nat
  dayAhead : ℚ
  realTime : ℚ
deriving DecidableEq

/-- A raw row survives `dropna()` exactly when every column is present;
the surviving row is the corresponding `Row`. -/
def toClean (r : RawRow) : Option Row :=
  match r.date, r.dayAhead, r.realTime with
  | some d, some a, some b => some ⟨d, a, b⟩
  | _, _, _ => none

/-- `df.dropna()`: keep the rows with no missing value in any column. -/
def dropna (df : List RawRow) : List Row := df.filterMap toClean

/-- The sort key of `sort_values('日期')`: compare rows by date. -/
def dateLE (a b : Row) : Bool := a.date ≤ b.date

/-- `df.sort_values('日期')` followed by `reset_index(drop=True)`:
reorder the rows ascending by date (positional indices are re-assigned,
which the list representation does by itself).  pandas' default
`kind='quicksort'` does not guarantee stability, so the tie order on
equal dates is an implementation detail of the library; this executable
model fixes one admissible correct sort, and no theorem about the
program relies on its tie order — only on being a permutation sorted
ascending by date, which holds of every correct sort. -/
def sortByDate (rows : List Row) : List Row := rows.mergeSort dateLE

/-- The whole cleaning step of `plot_daily_price_trend`
(`dropna().sort_values('日期').reset_index(drop=True)`). -/
def cleanTable (df : List RawRow) : List Row := sortByDate (dropna df)

/-- The column `df_clean['日前均价']`. -/
def dayAheadCol (rows : List Row) : List ℚ := rows.map (fun r => r.dayAhead)

/-- The column `df_clean['实时均价']`. -/
def realTimeCol (rows : List Row) : List ℚ := rows.map (fun r => r.realTime)

/-- The derived column `df_clean['价差'] = 实时均价 − 日前均价`:
the element-wise difference of the two price columns. -/
def spreadCol (rows : List Row) : List ℚ :=
  List.zipWith (fun a b => a - b) (realTimeCol rows) (dayAheadCol rows)

/-- `Series.mean()`: the arithmetic mean.  The script evaluates it only
behind the non-empty guard; on `[]` this total model returns the junk
value `0` (pandas would give NaN). -/
def mean (xs : List ℚ) : ℚ := xs.sum / (xs.length : ℚ)

/-- Centred second moment `Σ (x − mean)²`, the numerator shared by the
pandas variance and standard deviation. -/
def m2 (xs : List ℚ) : ℚ := (xs.map (fun x => (x - mean xs) ^ 2)).sum

/-- `Series.var(ddof)`: `Σ (x − mean)² / (n − ddof)`, NaN (`none`) when
`n ≤ ddof`. -/
def seriesVar (ddof : Nat) (xs : List ℚ) : Option ℚ :=
  if xs.length ≤ ddof then none
  else some (m2 xs / ((xs.length - ddof : Nat) : ℚ))

/-- `Series.std(ddof)`: square root of `Series.var(ddof)`.  The script's
`.std()` calls use the pandas default `ddof = 1`. -/
noncomputable def seriesStd (ddof : Nat) (xs : List ℚ) : Option ℝ :=
  (seriesVar ddof xs).map (fun v => Real.sqrt (v : ℝ))

/-- Centred co-moment `Σ (x − mean xs) * (y − mean ys)` of two
positionally aligned columns. -/
def comoment (xs ys : List ℚ) : ℚ :=
  ((xs.zip ys).map (fun p => (p.1 - mean xs) * (p.2 - mean ys))).sum

/-- `Series.corr` (Pearson): co-moment over the product of the root
second moments; NaN (`none`) when fewer than two points or when either
series is constant. -/
noncomputable def pearson (xs ys : List ℚ) : Option ℝ :=
  if xs.length < 2 then none
  else if m2 xs = 0 ∨ m2 ys = 0 then none
  else some ((comoment xs ys : ℝ) / (Real.sqrt ((m2 xs : ℚ) : ℝ) * Real.sqrt ((m2 ys : ℚ) : ℝ)))

/-- `premium_rate = (price_diff_mean / dayahead_mean * 100) if
dayahead_mean else np.nan`: Python's falsy test on the mean guards the
division; the NaN branch is `none`. -/
def premium_rate (rows : List Row) : Option ℚ :=
  if mean (dayAheadCol rows) = 0 then none
  else some (mean (spreadCol rows) / mean (dayAheadCol rows) * 100)

/-- `Series.idxmax` after `reset_index(drop=True)`: positional index of
the first occurrence of the maximum.  Junk value `0` on `[]` (pandas
raises there; the script calls it only on non-empty columns). -/
def idxmax (xs : List ℚ) : Nat :=
  match xs with
  | [] => 0
  | x :: t => (go 1 0 x t).1
where
  go (i best : Nat) (bestVal : ℚ) : List ℚ → Nat × ℚ
    | [] => (best, bestVal)
    | y :: t => if bestVal < y then go (i + 1) i y t else go (i + 1) best bestVal t

/-- `Series.idxmin`, analogously. -/
def idxmin (xs : List ℚ) : Nat :=
  match xs with
  | [] => 0
  | x :: t => (go 1 0 x t).1
where
  go (i best : Nat) (bestVal : ℚ) : List ℚ → Nat × ℚ
    | [] => (best, bestVal)
    | y :: t => if y < bestVal then go (i + 1) i y t else go (i + 1) best bestVal t

/-- Round to the nearest integer, ties to even (the rounding of Python's
fixed-point formatting). -/
def roundHalfEven (q : ℚ) : ℤ :=
  let f : ℤ := ⌊q⌋
  let r : ℚ := q - (f : ℚ)
  if r < 1 / 2 then f
  else if 1 / 2 < r then f + 1
  else if f % 2 = 0 then f else f + 1

/-- `f"{v:.2f}"`: render with exactly two decimal places. -/
def renderFixed2 (q : ℚ) : String :=
  let c : ℤ := roundHalfEven (q * 100)
  let a : Nat := c.natAbs
  let sign : String := if c < 0 then ("-") else ("")
  let fracPart : Nat := a % 100
  let pad : String := if fracPart < 10 then ("0") else ("")
  sign ++ toString (a / 100) ++ (".") ++ pad ++ toString fracPart

/-- `_format_percent`: `"--"` for a missing/non-finite value, otherwise
the value to two decimals followed by a percent sign. -/
def format_percent (v : Option ℚ) : String :=
  match v with
  | none => ("--")
  | some x => renderFixed2 x ++ ("%")

/-- `_format_currency`: `"--"` for a missing/non-finite value, otherwise
the value to two decimals. -/
def format_currency (v : Option ℚ) : String :=
  match v with
  | none => ("--")
  | some x => renderFixed2 x

/-- The in-memory figure: the data the chart would display that the
claims refer to. -/
structure Figure where
  nRows : Nat
  startDate : Nat
  endDate : Nat
  premiumSubtitle : String
deriving DecidableEq

/-- The observable outcome of `plot_daily_price_trend`: the printed
messages, the returned figure (`None` ↦ `none`) and the keys of the
returned axes dictionary (`None` ↦ `none`). -/
structure PlotReturn where
  messages : List String
  fig : Option Figure
  axes : Option (List String)
deriving DecidableEq

/-- The keys of the axes dictionary built by the layout step. -/
def axesNames : List String := ["kpi", "main", "diff", "stats"]

/-- `plot_daily_price_trend(df, save_path=...)`.  `saveOutcome` is the
result of the external `plt.savefig` call (`Except.error e` models a
raised exception with message `e`); it is consulted only when a save
path is supplied. -/
def plot_daily_price_trend (df : List RawRow) (save_path : Option String)
    (saveOutcome : Except String Unit) : PlotReturn :=
  let df_clean := cleanTable df
  if df_clean.isEmpty then
    { messages := ["错误：数据为空或所有行都包含缺失值，无法生成图表。"]
      fig := none
      axes := none }
  else
    let fig : Figure :=
      { nRows := df_clean.length
        startDate := ((df_clean.map (fun r => r.date)).min?).getD 0
        endDate := ((df_clean.map (fun r => r.date)).max?).getD 0
        premiumSubtitle := ("平均溢价率 ") ++ format_percent (premium_rate df_clean) }
    let saveMessages : List String :=
      match save_path, saveOutcome with
      | none, _ => []
      | some p, Except.ok _ => [("图表已成功保存至: ") ++ p]
      | some _, Except.error e => [("保存图表时发生错误: ") ++ e]
    { messages := saveMessages
      fig := some fig
      axes := some axesNames }

/-- The date column of `create_demo_data` (35 consecutive days,
2025-06-29 … 2025-08-02). -/
def demoDates : List Nat :=
  [mkDate 2025 6 29, mkDate 2025 6 30, mkDate 2025 7 1, mkDate 2025 7 2, mkDate 2025 7 3,
   mkDate 2025 7 4, mkDate 2025 7 5, mkDate 2025 7 6, mkDate 2025 7 7, mkDate 2025 7 8,
   mkDate 2025 7 9, mkDate 2025 7 10, mkDate 2025 7 11, mkDate 2025 7 12, mkDate 2025 7 13,
   mkDate 2025 7 14, mkDate 2025 7 15, mkDate 2025 7 16, mkDate 2025 7 17, mkDate 2025 7 18,
   mkDate 2025 7 19, mkDate 2025 7 20, mkDate 2025 7 21, mkDate 2025 7 22, mkDate 2025 7 23,
   mkDate 2025 7 24, mkDate 2025 7 25, mkDate 2025 7 26, mkDate 2025 7 27, mkDate 2025 7 28,
   mkDate 2025 7 29, mkDate 2025 7 30, mkDate 2025 7 31, mkDate 2025 8 1, mkDate 2025 8 2]

/-- The 日前均价 (day-ahead) literals of `create_demo_data`. -/
def demoDayAhead : List ℚ :=
  [306.28, 427.16, 298.83, 273.59, 266.34, 312.77, 341.52, 375.37,
   346.33, 310.02, 332.56, 374.76, 421.81, 352.55, 411.63, 365.21,
   381.49, 360.48, 417.15, 454.51, 507.47, 546.51, 275.56, 281.71,
   412.94, 339.47, 374.21, 357.71, 335.31, 327.78, 309.18, 230.01,
   326.55, 320.12, 338.37]

/-- The 实时均价 (real-time) literals of `create_demo_data`. -/
def demoRealTime : List ℚ :=
  [550.50, 446.52, 370.22, 351.28, 298.34, 365.67, 300.18, 451.16,
   358.45, 361.55, 357.77, 408.07, 424.15, 372.03, 475.77, 468.73,
   427.64, 442.74, 428.10, 427.08, 437.81, 507.91, 340.33, 336.27,
   332.39, 355.34, 280.34, 326.35, 296.43, 279.07, 253.78, 209.47,
   298.27, 345.40, 269.36]

/-- `create_demo_data`: build the 35-row frame, then execute
`df_demo.loc[df_demo['日期'] == '2025-08-03', '实时均价'] = np.nan`,
i.e. blank the real-time price of every row dated 2025-08-03. -/
def create_demo_data : List RawRow :=
  let base :=
    (demoDates.zip (demoDayAhead.zip demoRealTime)).map
      (fun p => { date := some p.1, dayAhead := some p.2.1, realTime := some p.2.2 })
  base.map (fun r =>
    if r.date = some (mkDate 2025 8 3) then { r with realTime := none } else r)

/-- A raw row with no missing value in any of the three columns. -/
def validRow (r : RawRow) : Bool :=
  r.date.isSome && r.dayAhead.isSome && r.realTime.isSome

/-- A raw row whose two price columns are present (its date may still be
missing); the rows the spec says survive cleaning. -/
def pricesPresent (r : RawRow) : Bool := r.dayAhead.isSome && r.realTime.isSome

/-- The cleaned row corresponding to a valid raw row (junk defaults on
invalid rows, which are filtered away before it is applied). -/
def forceClean (r : RawRow) : Row :=
  { date := r.date.getD 0, dayAhead := r.dayAhead.getD 0, realTime := r.realTime.getD 0 }

/-- Modelled from the spec for the refinement claim C8: the arithmetic
mean, written from the spec's words. -/
def meanSpec (xs : List ℚ) : ℚ := xs.sum / (xs.length : ℚ)

/-- Modelled from the spec for the refinement claim C8: the sample
(N − 1 denominator, Bessel-corrected) standard deviation, written from
the spec's words; undefined on fewer than two observations. -/
noncomputable def sampleStdSpec (xs : List ℚ) : Option ℝ :=
  if 2 ≤ xs.length then
    some (Real.sqrt (((xs.map (fun x => (x - meanSpec xs) ^ 2)).sum / ((xs.length : ℚ) - 1) : ℚ) : ℝ))
  else none

/-- The claim C1 as stated: cleaning drops exactly the rows with a null
in either price column (so the output has one row per price-complete
input row), sorts ascending by date, and is stable on equal dates. -/
def claimC1 (df : List RawRow) : Prop :=
  (cleanTable df).length = (df.filter pricesPresent).length
  ∧ (cleanTable df).Pairwise (fun a b => a.date ≤ b.date)
  ∧ ∀ d : Nat, (cleanTable df).filter (fun r => r.date == d)
      = (dropna df).filter (fun r => r.date == d)

-- ### Helper lemmas

theorem dropna_eq_map_filter (df : List RawRow) :
    dropna df = (df.filter validRow).map forceClean := by
  induction df with
  | nil => rfl
  | cons r t ih =>
    rcases r with ⟨d, a, b⟩
    rcases d <;> rcases a <;> rcases b <;>
      simp_all [dropna, toClean, validRow, forceClean, List.filterMap_cons]

theorem dateLE_trans : ∀ (a b c : Row), dateLE a b → dateLE b c → dateLE a c := by
  intro a b c hab hbc
  simp only [dateLE, decide_eq_true_eq] at hab hbc ⊢
  omega

theorem dateLE_total : ∀ (a b : Row), dateLE a b || dateLE b a := by
  intro a b
  simp only [dateLE, Bool.or_eq_true, decide_eq_true_eq]
  omega

theorem sortByDate_perm (l : List Row) : List.Perm (sortByDate l) l :=
  List.mergeSort_perm l dateLE

theorem sortByDate_sorted (l : List Row) :
    (sortByDate l).Pairwise (fun a b => a.date ≤ b.date) := by
  have h : (List.mergeSort l dateLE).Pairwise (fun a b => dateLE a b = true) :=
    List.sorted_mergeSort dateLE_trans dateLE_total l
  exact h.imp (by intro a b hab; simpa [dateLE] using hab)

theorem spreadCol_eq_map (rows : List Row) :
    spreadCol rows = rows.map (fun r => r.realTime - r.dayAhead) := by
  induction rows with
  | nil => rfl
  | cons r t ih => simp_all [spreadCol, realTimeCol, dayAheadCol]

theorem zipCols_eq_map (rows : List Row) :
    (dayAheadCol rows).zip (realTimeCol rows)
      = rows.map (fun r => (r.dayAhead, r.realTime)) := by
  induction rows with
  | nil => rfl
  | cons r t ih => simp_all [dayAheadCol, realTimeCol]

theorem mean_perm {xs ys : List ℚ} (h : List.Perm xs ys) : mean xs = mean ys := by
  unfold mean
  rw [h.sum_eq, h.length_eq]

theorem m2_perm {xs ys : List ℚ} (h : List.Perm xs ys) : m2 xs = m2 ys := by
  unfold m2
  rw [mean_perm h]
  exact (h.map _).sum_eq

theorem seriesVar_perm (ddof : Nat) {xs ys : List ℚ} (h : List.Perm xs ys) :
    seriesVar ddof xs = seriesVar ddof ys := by
  unfold seriesVar
  rw [m2_perm h, h.length_eq]

theorem seriesStd_perm (ddof : Nat) {xs ys : List ℚ} (h : List.Perm xs ys) :
    seriesStd ddof xs = seriesStd ddof ys := by
  unfold seriesStd
  rw [seriesVar_perm ddof h]

theorem dayAheadCol_perm {rows rows' : List Row} (h : List.Perm rows rows') :
    List.Perm (dayAheadCol rows) (dayAheadCol rows') := h.map _

theorem realTimeCol_perm {rows rows' : List Row} (h : List.Perm rows rows') :
    List.Perm (realTimeCol rows) (realTimeCol rows') := h.map _

theorem spreadCol_perm {rows rows' : List Row} (h : List.Perm rows rows') :
    List.Perm (spreadCol rows) (spreadCol rows') := by
  rw [spreadCol_eq_map, spreadCol_eq_map]
  exact h.map _

theorem comoment_cols_perm {rows rows' : List Row} (h : List.Perm rows rows') :
    comoment (dayAheadCol rows) (realTimeCol rows)
      = comoment (dayAheadCol rows') (realTimeCol rows') := by
  unfold comoment
  rw [zipCols_eq_map, zipCols_eq_map, mean_perm (dayAheadCol_perm h),
    mean_perm (realTimeCol_perm h)]
  exact ((h.map _).map _).sum_eq

theorem pearson_cols_perm {rows rows' : List Row} (h : List.Perm rows rows') :
    pearson (dayAheadCol rows) (realTimeCol rows)
      = pearson (dayAheadCol rows') (realTimeCol rows') := by
  unfold pearson
  rw [m2_perm (dayAheadCol_perm h), m2_perm (realTimeCol_perm h),
    comoment_cols_perm h, (dayAheadCol_perm h).length_eq]

theorem seriesStd_eq_sampleStdSpec (xs : List ℚ) :
    seriesStd 1 xs = sampleStdSpec xs := by
  by_cases h2 : 2 ≤ xs.length
  · have hl : ¬ xs.length ≤ 1 := by omega
    have hc : ((xs.length - 1 : Nat) : ℚ) = (xs.length : ℚ) - 1 := by
      push_cast [Nat.cast_sub (by omega : 1 ≤ xs.length)]
      ring
    simp [seriesStd, seriesVar, sampleStdSpec, m2, mean, meanSpec, hl, h2, hc]
  · have hl : xs.length ≤ 1 := by omega
    simp [seriesStd, seriesVar, sampleStdSpec, hl, h2]

-- ### Concrete evaluation helpers

/-- The demo dates are already ascending, so the sort leaves `dropna`'s
output unchanged. -/
theorem cleanTable_demo : cleanTable create_demo_data = dropna create_demo_data := by
  have h : (dropna create_demo_data).Pairwise (fun a b => dateLE a b = true) := by decide
  simpa [cleanTable, sortByDate] using List.mergeSort_of_sorted h

theorem dayAheadCol_dropna_demo : dayAheadCol (dropna create_demo_data) = demoDayAhead := rfl

/-- A one-valid-row input used by several witnesses. -/
def oneRowDf : List RawRow := [{ date := some 1, dayAhead := some 2, realTime := some 3 }]

theorem cleanTable_oneRowDf :
    cleanTable oneRowDf = [{ date := 1, dayAhead := 2, realTime := 3 }] := by
  simp [oneRowDf, cleanTable, dropna, toClean, sortByDate]

theorem cleanTable_oneRowDf_ne_nil : cleanTable oneRowDf ≠ [] := by
  rw [cleanTable_oneRowDf]
  simp

-- ### The claims

/-- An input with one fully valid row and one row whose prices are
present but whose date is missing; it refutes claim C1 as stated. -/
def c1BadInput : List RawRow :=
  [{ date := some 1, dayAhead := some 2, realTime := some 3 },
   { date := none, dayAhead := some 4, realTime := some 5 }]

/-- C1 counterexample: on an input with one valid row plus a row whose
prices are present but whose date is null, `dropna()` also drops the
null-date row, so cleaning does not remove only the rows with a null
price column. -/
theorem c1_counterexample :
    (∃ r ∈ c1BadInput, validRow r = true) ∧ ¬ claimC1 c1BadInput := by
  constructor
  · exact ⟨{ date := some 1, dayAhead := some 2, realTime := some 3 },
      List.mem_cons_self _ _, rfl⟩
  · intro h
    have hlen := h.1
    have e1 : cleanTable c1BadInput = [{ date := 1, dayAhead := 2, realTime := 3 }] := by
      simp [cleanTable, dropna, toClean, c1BadInput, sortByDate]
    rw [e1] at hlen
    simp [c1BadInput, pricesPresent] at hlen

/-- C1 (amended): for every input table with at least one valid row, the
cleaning step removes exactly the rows with a null in any of the three
columns (date or either price) — no other rows are dropped — and orders
the remaining rows ascending by date.  The original claim's stability
guarantee on equal dates is dropped: `sort_values` is called with the
pandas default `kind='quicksort'`, which is documented as unstable, so
the program does not fix the relative order of equal-date rows; the
properties asserted here hold for every correct sort. -/
theorem c1_cleaning_correct (df : List RawRow) (h : ∃ r ∈ df, validRow r = true) :
    List.Perm (cleanTable df) ((df.filter validRow).map forceClean)
    ∧ (cleanTable df).Pairwise (fun a b => a.date ≤ b.date) := by
  refine ⟨?_, sortByDate_sorted _⟩
  rw [← dropna_eq_map_filter]
  exact sortByDate_perm _

/-- C1 witness: the amended cleaning property at a concrete two-row
input. -/
theorem c1_witness :
    (∃ r ∈ ([{ date := some 7, dayAhead := some 1, realTime := some 2 },
             { date := some 5, dayAhead := some 3, realTime := some 4 }] : List RawRow),
        validRow r = true)
    ∧ (List.Perm (cleanTable [{ date := some 7, dayAhead := some 1, realTime := some 2 },
          { date := some 5, dayAhead := some 3, realTime := some 4 }])
        (([{ date := some 7, dayAhead := some 1, realTime := some 2 },
           { date := some 5, dayAhead := some 3, realTime := some 4 }].filter validRow).map forceClean)
      ∧ (cleanTable [{ date := some 7, dayAhead := some 1, realTime := some 2 },
          { date := some 5, dayAhead := some 3, realTime := some 4 }]).Pairwise
            (fun a b => a.date ≤ b.date)) :=
  ⟨⟨{ date := some 7, dayAhead := some 1, realTime := some 2 }, List.mem_cons_self _ _, rfl⟩,
    c1_cleaning_correct _
      ⟨{ date := some 7, dayAhead := some 1, realTime := some 2 }, List.mem_cons_self _ _, rfl⟩⟩

/-- C2: the demo fixture has 35 rows covering 2025-06-29 … 2025-08-02,
but the intended NaN injection targets the absent date 2025-08-03, so
the returned dataset contains zero (not one) missing price values. -/
theorem c2_demo_injection_is_noop :
    create_demo_data.length = 35
    ∧ (create_demo_data.filter (fun r => ! validRow r)).length = 0
    ∧ (create_demo_data.map (fun r => r.date)).head? = some (some (mkDate 2025 6 29))
    ∧ (create_demo_data.map (fun r => r.date)).getLast? = some (some (mkDate 2025 8 2)) := by
  refine ⟨rfl, ?_, rfl, rfl⟩
  decide

/-- C3: when the mean of the day-ahead prices over the cleaned rows is
zero, the guarded premium-rate computation yields the undefined sentinel
(`none`, modelling `np.nan`) and `_format_percent` renders it as the
placeholder string; both functions are total, so nothing is raised. -/
theorem c3_premium_rate_zero_mean (rows : List Row) (h : mean (dayAheadCol rows) = 0) :
    premium_rate rows = none ∧ format_percent (premium_rate rows) = ("--") := by
  unfold premium_rate
  simp [h, format_percent]

/-- C3 witness: a cleaned table whose day-ahead mean is zero. -/
theorem c3_witness :
    mean (dayAheadCol [({ date := 1, dayAhead := -5, realTime := 3 } : Row),
      { date := 2, dayAhead := 5, realTime := 7 }]) = 0
    ∧ format_percent (premium_rate [({ date := 1, dayAhead := -5, realTime := 3 } : Row),
        { date := 2, dayAhead := 5, realTime := 7 }]) = ("--") := by
  have h : mean (dayAheadCol [({ date := 1, dayAhead := -5, realTime := 3 } : Row),
      { date := 2, dayAhead := 5, realTime := 7 }]) = 0 := by
    norm_num [mean, dayAheadCol]
  exact ⟨h, (c3_premium_rate_zero_mean _ h).2⟩

/-- C4: an input that is empty or whose rows are all dropped during
cleaning makes `plot_daily_price_trend` return the explicit empty
result — the error message, no figure and no axes — without building
any panel layout (the function is total, so nothing is raised). -/
theorem c4_empty_input (df : List RawRow) (sp : Option String) (so : Except String Unit)
    (h : ∀ r ∈ df, toClean r = none) :
    plot_daily_price_trend df sp so =
      { messages := ["错误：数据为空或所有行都包含缺失值，无法生成图表。"]
        fig := none
        axes := none } := by
  have hclean : cleanTable df = [] := by
    have hd : dropna df = [] := by
      unfold dropna
      exact List.filterMap_eq_nil_iff.mpr h
    unfold cleanTable sortByDate
    rw [hd]
    simp
  simp [plot_daily_price_trend, hclean]

/-- C4 witness: a one-row input whose single row has a missing price. -/
theorem c4_witness :
    (∀ r ∈ ([{ date := some 1, dayAhead := none, realTime := some 2 }] : List RawRow),
        toClean r = none)
    ∧ plot_daily_price_trend [{ date := some 1, dayAhead := none, realTime := some 2 }]
        none (Except.ok ()) =
      { messages := ["错误：数据为空或所有行都包含缺失值，无法生成图表。"]
        fig := none
        axes := none } := by
  have h : ∀ r ∈ ([{ date := some 1, dayAhead := none, realTime := some 2 }] : List RawRow),
      toClean r = none := by
    intro r hr
    rw [List.mem_singleton] at hr
    subst hr
    rfl
  exact ⟨h, c4_empty_input _ none (Except.ok ()) h⟩

/-- C5 counterexample: the day-ahead mean over the cleaned demo data is
620663/1750 ≈ 354.66, which is not within 0.01 of the claimed 351.41. -/
theorem c5_counterexample :
    ¬ (|mean (dayAheadCol (cleanTable create_demo_data)) - 351.41| ≤ 1 / 100) := by
  have hm : mean (dayAheadCol (cleanTable create_demo_data)) = 620663 / 1750 := by
    rw [cleanTable_demo, dayAheadCol_dropna_demo]
    norm_num [mean, demoDayAhead]
  rw [hm]
  intro h
  rw [abs_le] at h
  have h2 := h.2
  norm_num at h2

/-- C5 (amended): the demo round trip yields 35 cleaned rows, a
day-ahead mean within 0.01 of 354.66 (not 351.41), first row dated
2025-06-29 with spread exactly 550.50 − 306.28 = 244.22, and the
day-ahead maximum 546.51 at extremum index 21, the row dated
2025-07-20. -/
theorem c5_demo_roundtrip :
    (cleanTable create_demo_data).length = 35
    ∧ |mean (dayAheadCol (cleanTable create_demo_data)) - 354.66| ≤ 1 / 100
    ∧ ((cleanTable create_demo_data).map (fun r => r.date)).head? = some (mkDate 2025 6 29)
    ∧ (spreadCol (cleanTable create_demo_data)).head? = some ((550.50 : ℚ) - 306.28)
    ∧ ((550.50 : ℚ) - 306.28) = 244.22
    ∧ idxmax (dayAheadCol (cleanTable create_demo_data)) = 21
    ∧ (dayAheadCol (cleanTable create_demo_data))[21]? = some (546.51 : ℚ)
    ∧ ((cleanTable create_demo_data).map (fun r => r.date))[21]? = some (mkDate 2025 7 20) := by
  refine ⟨?_, ?_, ?_, ?_, by norm_num, ?_, ?_, ?_⟩
  · rw [cleanTable_demo]
    decide
  · rw [cleanTable_demo, dayAheadCol_dropna_demo]
    have hm : mean demoDayAhead = 620663 / 1750 := by norm_num [mean, demoDayAhead]
    rw [hm, abs_le]
    constructor <;> norm_num
  · rw [cleanTable_demo]
    rfl
  · rw [cleanTable_demo, spreadCol_eq_map]
    rfl
  · rw [cleanTable_demo, dayAheadCol_dropna_demo]
    norm_num [idxmax, idxmax.go, demoDayAhead]
  · rw [cleanTable_demo, dayAheadCol_dropna_demo]
    rfl
  · rw [cleanTable_demo]
    rfl

/-- C6: a failing `plt.savefig` call is caught: the warning message is
printed and the figure and axes are still returned. -/
theorem c6_save_failure_nonfatal (df : List RawRow) (p e : String)
    (h : cleanTable df ≠ []) :
    (plot_daily_price_trend df (some p) (Except.error e)).fig.isSome = true
    ∧ (plot_daily_price_trend df (some p) (Except.error e)).axes.isSome = true
    ∧ (("保存图表时发生错误: ") ++ e)
        ∈ (plot_daily_price_trend df (some p) (Except.error e)).messages := by
  have he : (cleanTable df).isEmpty = false := by
    simpa [List.isEmpty_iff] using h
  simp [plot_daily_price_trend, he]

/-- C6 witness: a non-empty input with an unwritable save path. -/
theorem c6_witness :
    cleanTable oneRowDf ≠ []
    ∧ ((plot_daily_price_trend oneRowDf (some ("out.png")) (Except.error ("disk full"))).fig.isSome
          = true
      ∧ (plot_daily_price_trend oneRowDf (some ("out.png")) (Except.error ("disk full"))).axes.isSome
          = true
      ∧ (("保存图表时发生错误: ") ++ ("disk full"))
          ∈ (plot_daily_price_trend oneRowDf (some ("out.png")) (Except.error ("disk full"))).messages) :=
  ⟨cleanTable_oneRowDf_ne_nil,
    c6_save_failure_nonfatal oneRowDf ("out.png") ("disk full") cleanTable_oneRowDf_ne_nil⟩

/-- C7: every aggregate the script computes — the three means, the three
sample standard deviations and the Pearson correlation between the
day-ahead and real-time columns — is invariant under permutation of the
cleaned rows. -/
theorem c7_aggregates_perm_invariant (rows rows' : List Row) (h : List.Perm rows rows') :
    mean (dayAheadCol rows) = mean (dayAheadCol rows')
    ∧ mean (realTimeCol rows) = mean (realTimeCol rows')
    ∧ mean (spreadCol rows) = mean (spreadCol rows')
    ∧ seriesStd 1 (dayAheadCol rows) = seriesStd 1 (dayAheadCol rows')
    ∧ seriesStd 1 (realTimeCol rows) = seriesStd 1 (realTimeCol rows')
    ∧ seriesStd 1 (spreadCol rows) = seriesStd 1 (spreadCol rows')
    ∧ pearson (dayAheadCol rows) (realTimeCol rows)
        = pearson (dayAheadCol rows') (realTimeCol rows') :=
  ⟨mean_perm (dayAheadCol_perm h), mean_perm (realTimeCol_perm h), mean_perm (spreadCol_perm h),
    seriesStd_perm 1 (dayAheadCol_perm h), seriesStd_perm 1 (realTimeCol_perm h),
    seriesStd_perm 1 (spreadCol_perm h), pearson_cols_perm h⟩

/-- A concrete two-row cleaned table used by witnesses. -/
def twoRows : List Row :=
  [{ date := 1, dayAhead := 1, realTime := 2 }, { date := 2, dayAhead := 3, realTime := 5 }]

/-- C7 witness: the aggregates agree on a concrete table and its
reversal. -/
theorem c7_witness :
    List.Perm twoRows twoRows.reverse
    ∧ (mean (dayAheadCol twoRows) = mean (dayAheadCol twoRows.reverse)
      ∧ mean (realTimeCol twoRows) = mean (realTimeCol twoRows.reverse)
      ∧ mean (spreadCol twoRows) = mean (spreadCol twoRows.reverse)
      ∧ seriesStd 1 (dayAheadCol twoRows) = seriesStd 1 (dayAheadCol twoRows.reverse)
      ∧ seriesStd 1 (realTimeCol twoRows) = seriesStd 1 (realTimeCol twoRows.reverse)
      ∧ seriesStd 1 (spreadCol twoRows) = seriesStd 1 (spreadCol twoRows.reverse)
      ∧ pearson (dayAheadCol twoRows) (realTimeCol twoRows)
          = pearson (dayAheadCol twoRows.reverse) (realTimeCol twoRows.reverse)) :=
  ⟨(List.reverse_perm twoRows).symm,
    c7_aggregates_perm_invariant twoRows twoRows.reverse ((List.reverse_perm twoRows).symm)⟩

/-- C8: the script's standard deviations (pandas `.std()`, default
`ddof = 1`) coincide with the spec's Bessel-corrected N − 1 sample
standard deviation for each of the three series, and its central values
are the arithmetic means. -/
theorem c8_sample_std (rows : List Row) (h : rows ≠ []) :
    seriesStd 1 (dayAheadCol rows) = sampleStdSpec (dayAheadCol rows)
    ∧ seriesStd 1 (realTimeCol rows) = sampleStdSpec (realTimeCol rows)
    ∧ seriesStd 1 (spreadCol rows) = sampleStdSpec (spreadCol rows)
    ∧ mean (dayAheadCol rows) = meanSpec (dayAheadCol rows)
    ∧ mean (realTimeCol rows) = meanSpec (realTimeCol rows)
    ∧ mean (spreadCol rows) = meanSpec (spreadCol rows) :=
  ⟨seriesStd_eq_sampleStdSpec _, seriesStd_eq_sampleStdSpec _, seriesStd_eq_sampleStdSpec _,
    rfl, rfl, rfl⟩

/-- C8 witness: the agreement at a concrete non-empty table. -/
theorem c8_witness :
    twoRows ≠ []
    ∧ (seriesStd 1 (dayAheadCol twoRows) = sampleStdSpec (dayAheadCol twoRows)
      ∧ seriesStd 1 (realTimeCol twoRows) = sampleStdSpec (realTimeCol twoRows)
      ∧ seriesStd 1 (spreadCol twoRows) = sampleStdSpec (spreadCol twoRows)
      ∧ mean (dayAheadCol twoRows) = meanSpec (dayAheadCol twoRows)
      ∧ mean (realTimeCol twoRows) = meanSpec (realTimeCol twoRows)
      ∧ mean (spreadCol twoRows) = meanSpec (spreadCol twoRows)) :=
  ⟨List.cons_ne_nil _ _, c8_sample_std twoRows (List.cons_ne_nil _ _)⟩

/-- C9: the derived spread column agrees row-by-row with the exact
subtraction real-time − day-ahead on the cleaned table. -/
theorem c9_spread_exact (df : List RawRow) (i : Nat) (r : Row)
    (h : (cleanTable df)[i]? = some r) :
    (spreadCol (cleanTable df))[i]? = some (r.realTime - r.dayAhead) := by
  rw [spreadCol_eq_map, List.getElem?_map, h]
  rfl

/-- C9 witness: the spread of the single cleaned row of `oneRowDf`. -/
theorem c9_witness :
    (cleanTable oneRowDf)[0]? = some ({ date := 1, dayAhead := 2, realTime := 3 } : Row)
    ∧ (spreadCol (cleanTable oneRowDf))[0]? = some ((3 : ℚ) - 2) := by
  have h : (cleanTable oneRowDf)[0]? = some ({ date := 1, dayAhead := 2, realTime := 3 } : Row) := by
    rw [cleanTable_oneRowDf]
    rfl
  exact ⟨h, c9_spread_exact oneRowDf 0 _ h⟩

/-- C10: the function returns the pair (None, None) exactly when the
cleaned table is empty; otherwise it returns a figure together with the
axes dictionary whose keys are exactly kpi, main, diff and stats. -/
theorem c10_none_iff_empty (df : List RawRow) (sp : Option String) (so : Except String Unit) :
    ((plot_daily_price_trend df sp so).fig = none
        ∧ (plot_daily_price_trend df sp so).axes = none ↔ cleanTable df = [])
    ∧ (cleanTable df ≠ [] →
        (plot_daily_price_trend df sp so).fig.isSome = true
        ∧ (plot_daily_price_trend df sp so).axes = some ["kpi", "main", "diff", "stats"]) := by
  by_cases h : cleanTable df = []
  · have he : (cleanTable df).isEmpty = true := by simp [h]
    constructor
    · simp [plot_daily_price_trend, he, h]
    · intro hn
      exact absurd h hn
  · have he : (cleanTable df).isEmpty = false := by simpa [List.isEmpty_iff] using h
    constructor
    · simp [plot_daily_price_trend, he, h]
    · intro _
      simp [plot_daily_price_trend, he, axesNames]

/-- C10 witness: the empty table gives (none, none); a one-row table
gives the four panel keys. -/
theorem c10_witness :
    ((plot_daily_price_trend ([] : List RawRow) none (Except.ok ())).fig = none
      ∧ (plot_daily_price_trend ([] : List RawRow) none (Except.ok ())).axes = none)
    ∧ (cleanTable oneRowDf ≠ []
      ∧ (plot_daily_price_trend oneRowDf none (Except.ok ())).axes
          = some ["kpi", "main", "diff", "stats"]) := by
  have hnil : cleanTable ([] : List RawRow) = [] := by
    simp [cleanTable, dropna, sortByDate]
  refine ⟨((c10_none_iff_empty ([] : List RawRow) none (Except.ok ())).1).mpr hnil,
    cleanTable_oneRowDf_ne_nil, ?_⟩
  exact ((c10_none_iff_empty oneRowDf none (Except.ok ())).2 cleanTable_oneRowDf_ne_nil).2
